import Mathlib

/-!
Shallow embedding of the analytics-dashboard repository (three source files:
`armaan.jsx`, `armaannew.jsx`, `finops.jsx`).  Each file contains a table
component (filter / sort / paginate / export) and a dashboard state machine
(view navigation, drill-down fetch handlers, detail modal).  JavaScript scalar
values are modelled by the inductive `Value` (numbers as integers — no
fractional values are needed by any claim), records by association lists, and
every fetch by an explicit `FetchResult` outcome consumed by the handler
translated from the source.  String operations are implemented over the
underlying character lists so that all definitions evaluate by `decide`.
-/

/-- A JavaScript scalar value as it occurs in the dashboard datasets.
Numbers are modelled as integers. -/
inductive Value where
  | vnull
  | undef
  | num (n : Int)
  | str (s : String)
deriving DecidableEq, Repr

namespace Value

/-- JavaScript `String(value)` for the values of our model. -/
def jsToString : Value → String
  | vnull => "null"
  | undef => "undefined"
  | num n => toString n
  | str s => s

/-- JavaScript falsiness of a value (`null`, `undefined`, `0`, `""`). -/
def jsFalsy : Value → Bool
  | vnull => true
  | undef => true
  | num n => n == 0
  | str s => s == ""

/-- The value is `null` or `undefined` (the two cases the finops sort
comparator sends to the end). -/
def isNullish : Value → Bool
  | vnull => true
  | undef => true
  | _ => false

/-- The value is a number (JavaScript `typeof v === 'number'`). -/
def isNum : Value → Bool
  | num _ => true
  | _ => false

end Value

/-- A dataset row: an ordered field-name / value association list
(a JavaScript object). -/
abbrev Record := List (String × Value)

/-- JavaScript `row[key]`: the first binding of `key`, `undefined` when the
field is absent. -/
def jsGet (r : Record) (k : String) : Value :=
  ((r.find? (fun p => p.1 == k)).map Prod.snd).getD Value.undef

/-- JavaScript `Object.values(row)`. -/
def jsValues (r : Record) : List Value :=
  r.map Prod.snd

/-- `String.prototype.toLowerCase`, implemented over the character list so
that it evaluates inside `decide`. -/
def lowerStr (s : String) : String :=
  String.mk (s.data.map Char.toLower)

/-- `needle` occurs as a contiguous sublist of `hay`. -/
def listInfix [DecidableEq α] (needle hay : List α) : Bool :=
  match hay with
  | [] => needle.isEmpty
  | _ :: t => needle.isPrefixOf hay || listInfix needle t

/-- JavaScript `hay.includes(needle)` on strings. -/
def jsIncludes (hay needle : String) : Bool :=
  listInfix needle.data hay.data

/-- Strict code-unit lexicographic order on character lists (the order used
by the JavaScript `<` operator on strings). -/
def charListLt : List Char → List Char → Bool
  | [], [] => false
  | [], _ :: _ => true
  | _ :: _, [] => false
  | a :: s, b :: t => if a < b then true else if b < a then false else charListLt s t

/-- JavaScript `s < t` on strings. -/
def strLt (s t : String) : Bool :=
  charListLt s.data t.data

/-- JavaScript `ToNumber` restricted to our value model; `none` is `NaN`.
String contents are parsed as optionally-signed decimal integers (the only
numeric strings occurring in the datasets); the empty string converts to 0. -/
def jsToNumber : Value → Option Int
  | .vnull => some 0
  | .undef => none
  | .num n => some n
  | .str s =>
    match s.data with
    | [] => some 0
    | '-' :: ds => if ds ≠ [] && ds.all Char.isDigit then
        some (-(Int.ofNat (ds.foldl (fun a c => a * 10 + c.toNat - '0'.toNat) 0)))
      else none
    | ds => if ds.all Char.isDigit then
        some (Int.ofNat (ds.foldl (fun a c => a * 10 + c.toNat - '0'.toNat) 0))
      else none

/-- JavaScript `a < b` on our values: string–string comparison is
lexicographic, every other pair is compared numerically after `ToNumber`
(`NaN` makes the comparison false). -/
def jsLt : Value → Value → Bool
  | .str s, .str t => strLt s t
  | a, b =>
    match jsToNumber a, jsToNumber b with
    | some m, some n => decide (m < n)
    | _, _ => false

/-- Sort direction of a table sort configuration. -/
inductive SortDir where
  | asc
  | desc
deriving DecidableEq, Repr

/-- The `sortConfig` state of every table component:
`{ key: null | string, direction: 'asc' | 'desc' }`. -/
structure SortConfig where
  key : Option String
  direction : SortDir
deriving DecidableEq, Repr

namespace ArmaanNew

/-- From `armaannew.jsx` `DataTable.filteredData`: a row matches when some
field's string representation contains the search term, case-insensitively. -/
def rowMatches (searchTerm : String) (row : Record) : Bool :=
  (jsValues row).any fun value =>
    jsIncludes (lowerStr value.jsToString) (lowerStr searchTerm)

/-- From `armaannew.jsx` `DataTable.filteredData` (lines 72–80): empty search
term returns the data unchanged, otherwise `data.filter`. -/
def filteredData (data : List Record) (searchTerm : String) : List Record :=
  if searchTerm == "" then data
  else data.filter (rowMatches searchTerm)

/-- From `armaannew.jsx` `DataTable.handleSort` (lines 105–110). -/
def handleSort (key : String) (prev : SortConfig) : SortConfig :=
  { key := some key
    direction := if prev.key == some key && prev.direction == .asc then .desc else .asc }

end ArmaanNew

namespace FinOps

/-- From `finops.jsx` `InteractiveTable.filteredData` (lines 68–75); textually
the same computation as the armaannew variant. -/
def filteredData (data : List Record) (searchTerm : String) : List Record :=
  if searchTerm == "" then data
  else data.filter (ArmaanNew.rowMatches searchTerm)

/-- From `finops.jsx` `InteractiveTable.handleSort` (lines 107–112). -/
def handleSort (key : String) (prev : SortConfig) : SortConfig :=
  { key := some key
    direction := if prev.key == some key && prev.direction == .asc then .desc else .asc }

end FinOps

namespace Armaan

/-- From `armaan.jsx` `DataTable.handleSort` (lines 78–83). -/
def handleSort (key : String) (prev : SortConfig) : SortConfig :=
  { key := some key
    direction := if prev.key == some key && prev.direction == .asc then .desc else .asc }

end Armaan

/-- C9: for every dataset `D` and search term `s`, `filter(D, s)` is an
order-preserving subsequence of `D` (so it never mutates the input and its
length is at most `|D|`), every surviving record matches the term
case-insensitively in at least one field, and the empty search term is the
identity.  The finops variant computes the same function. -/
theorem C9_filter_spec (D : List Record) (s : String) :
    (ArmaanNew.filteredData D s).Sublist D ∧
    (ArmaanNew.filteredData D s).length ≤ D.length ∧
    (s ≠ "" → ∀ r ∈ ArmaanNew.filteredData D s, ArmaanNew.rowMatches s r = true) ∧
    ArmaanNew.filteredData D "" = D ∧
    FinOps.filteredData D s = ArmaanNew.filteredData D s := by
  refine ⟨?_, ?_, ?_, ?_, ?_⟩
  · unfold ArmaanNew.filteredData
    split
    · exact List.Sublist.refl D
    · exact List.filter_sublist D
  · unfold ArmaanNew.filteredData
    split
    · exact Nat.le_refl _
    · exact List.length_filter_le _ D
  · intro hs r hr
    unfold ArmaanNew.filteredData at hr
    rw [if_neg (by simpa using hs)] at hr
    exact (List.mem_filter.mp hr).2
  · simp [ArmaanNew.filteredData]
  · rfl

/-- C9 witness: the filter properties evaluated on a concrete two-record
dataset and the term "ali". -/
theorem C9_filter_spec_witness :
    ArmaanNew.filteredData [[("name", Value.str "Alice")], [("name", Value.str "Bob")]] "ali" =
      [[("name", Value.str "Alice")]] ∧
    ((ArmaanNew.filteredData [[("name", Value.str "Alice")], [("name", Value.str "Bob")]] "ali").Sublist
      [[("name", Value.str "Alice")], [("name", Value.str "Bob")]] ∧
     (ArmaanNew.filteredData [[("name", Value.str "Alice")], [("name", Value.str "Bob")]] "ali").length ≤
      ([[("name", Value.str "Alice")], [("name", Value.str "Bob")]] : List Record).length ∧
     ("ali" ≠ "" → ∀ r ∈ ArmaanNew.filteredData [[("name", Value.str "Alice")], [("name", Value.str "Bob")]] "ali",
        ArmaanNew.rowMatches "ali" r = true) ∧
     ArmaanNew.filteredData [[("name", Value.str "Alice")], [("name", Value.str "Bob")]] "" =
       [[("name", Value.str "Alice")], [("name", Value.str "Bob")]] ∧
     FinOps.filteredData [[("name", Value.str "Alice")], [("name", Value.str "Bob")]] "ali" =
       ArmaanNew.filteredData [[("name", Value.str "Alice")], [("name", Value.str "Bob")]] "ali") :=
  ⟨by decide, C9_filter_spec [[("name", Value.str "Alice")], [("name", Value.str "Bob")]] "ali"⟩

/-- C10: in all three table variants the header-click cycle is
`asc ↔ desc`: clicking the already-`asc` column yields `desc`, clicking the
`desc` column yields `asc`, two clicks on the currently sorted column are the
identity, and the resulting sort key is always the clicked column — never
`null`, so no click returns to the unsorted state. -/
theorem C10_sort_toggle (c : SortConfig) (k : String) (h : c.key = some k) :
    ArmaanNew.handleSort k (ArmaanNew.handleSort k c) = c ∧
    ArmaanNew.handleSort k ⟨some k, .asc⟩ = ⟨some k, .desc⟩ ∧
    ArmaanNew.handleSort k ⟨some k, .desc⟩ = ⟨some k, .asc⟩ ∧
    (∀ c' : SortConfig, (ArmaanNew.handleSort k c').key = some k) ∧
    (∀ c' : SortConfig, Armaan.handleSort k c' = ArmaanNew.handleSort k c') ∧
    (∀ c' : SortConfig, FinOps.handleSort k c' = ArmaanNew.handleSort k c') := by
  refine ⟨?_, ?_, ?_, fun c' => rfl, fun c' => rfl, fun c' => rfl⟩
  · obtain ⟨ck, cd⟩ := c
    cases h
    cases cd <;> simp [ArmaanNew.handleSort]
  · simp [ArmaanNew.handleSort]
  · simp [ArmaanNew.handleSort]

/-- C10 witness: the toggle cycle evaluated at the column "TOTAL_QUERIES"
starting from the ascending configuration. -/
theorem C10_sort_toggle_witness :
    ArmaanNew.handleSort "TOTAL_QUERIES"
        (ArmaanNew.handleSort "TOTAL_QUERIES" ⟨some "TOTAL_QUERIES", .asc⟩) =
      ⟨some "TOTAL_QUERIES", .asc⟩ ∧
    ArmaanNew.handleSort "TOTAL_QUERIES" ⟨some "TOTAL_QUERIES", .asc⟩ =
      ⟨some "TOTAL_QUERIES", .desc⟩ ∧
    ArmaanNew.handleSort "TOTAL_QUERIES" ⟨some "TOTAL_QUERIES", .desc⟩ =
      ⟨some "TOTAL_QUERIES", .asc⟩ ∧
    (∀ c' : SortConfig, (ArmaanNew.handleSort "TOTAL_QUERIES" c').key = some "TOTAL_QUERIES") ∧
    (∀ c' : SortConfig, Armaan.handleSort "TOTAL_QUERIES" c' = ArmaanNew.handleSort "TOTAL_QUERIES" c') ∧
    (∀ c' : SortConfig, FinOps.handleSort "TOTAL_QUERIES" c' = ArmaanNew.handleSort "TOTAL_QUERIES" c') :=
  C10_sort_toggle ⟨some "TOTAL_QUERIES", .asc⟩ "TOTAL_QUERIES" rfl

/-- One step of a stable insertion sort: insert `x` before the first element
`y` with `le x y`.  Used to model `Array.prototype.sort` with a user
comparator (`le a b` standing for `comparator(a, b) <= 0`); the ECMAScript
sort is specified to be stable, which insertion sort realises. -/
def orderedInsertBy (le : α → α → Bool) (x : α) : List α → List α
  | [] => [x]
  | y :: l => if le x y then x :: y :: l else y :: orderedInsertBy le x l

/-- Stable sort of a list by a boolean comparator relation. -/
def insertionSortBy (le : α → α → Bool) : List α → List α
  | [] => []
  | x :: l => orderedInsertBy le x (insertionSortBy le l)

theorem perm_orderedInsertBy (le : α → α → Bool) (x : α) (l : List α) :
    (orderedInsertBy le x l).Perm (x :: l) := by
  induction l with
  | nil => simp [orderedInsertBy]
  | cons y t ih =>
    cases hxy : le x y with
    | true => simp [orderedInsertBy, hxy]
    | false =>
      simp only [orderedInsertBy, hxy, Bool.false_eq_true, if_false]
      exact (ih.cons y).trans (List.Perm.swap x y t)

theorem perm_insertionSortBy (le : α → α → Bool) (l : List α) :
    (insertionSortBy le l).Perm l := by
  induction l with
  | nil => simp [insertionSortBy]
  | cons x t ih =>
    exact (perm_orderedInsertBy le x (insertionSortBy le t)).trans (ih.cons x)

/-- The elements satisfying `bad` form a suffix of the list. -/
def badLast (bad : α → Bool) : List α → Bool
  | [] => true
  | x :: l => if bad x then l.all bad else badLast bad l

theorem all_orderedInsertBy (le : α → α → Bool) (bad : α → Bool) (x : α) (l : List α)
    (hx : bad x = true) (hl : l.all bad = true) :
    (orderedInsertBy le x l).all bad = true := by
  induction l with
  | nil => simp [orderedInsertBy, hx]
  | cons y t ih =>
    simp only [List.all_cons, Bool.and_eq_true] at hl
    cases hxy : le x y with
    | true => simp [orderedInsertBy, hxy, hx, hl.1, hl.2]
    | false =>
      simp only [orderedInsertBy, hxy, Bool.false_eq_true, if_false, List.all_cons,
        Bool.and_eq_true]
      exact ⟨hl.1, ih hl.2⟩

theorem badLast_orderedInsertBy (le : α → α → Bool) (bad : α → Bool)
    (hbad : ∀ a b, bad a = true → le a b = false)
    (hgood : ∀ a b, bad a = false → bad b = true → le a b = true)
    (x : α) (l : List α) (hl : badLast bad l = true) :
    badLast bad (orderedInsertBy le x l) = true := by
  induction l with
  | nil =>
    cases hx : bad x with
    | true => simp [orderedInsertBy, badLast, hx]
    | false => simp [orderedInsertBy, badLast, hx]
  | cons y t ih =>
    cases hxy : le x y with
    | true =>
      have hx : bad x = false := by
        cases hc : bad x with
        | false => rfl
        | true => rw [hbad x y hc] at hxy; exact absurd hxy (by simp)
      simpa [orderedInsertBy, hxy, badLast, hx] using hl
    | false =>
      cases hy : bad y with
      | true =>
        have hx : bad x = true := by
          cases hc : bad x with
          | true => rfl
          | false => rw [hgood x y hc hy] at hxy; exact absurd hxy (by simp)
        have ht : t.all bad = true := by simpa [badLast, hy] using hl
        simp only [orderedInsertBy, hxy, Bool.false_eq_true, if_false, badLast, hy, if_true]
        exact all_orderedInsertBy le bad x t hx ht
      | false =>
        have ht : badLast bad t = true := by simpa [badLast, hy] using hl
        simpa [orderedInsertBy, hxy, badLast, hy] using ih ht

theorem badLast_insertionSortBy (le : α → α → Bool) (bad : α → Bool)
    (hbad : ∀ a b, bad a = true → le a b = false)
    (hgood : ∀ a b, bad a = false → bad b = true → le a b = true)
    (l : List α) :
    badLast bad (insertionSortBy le l) = true := by
  induction l with
  | nil => rfl
  | cons x t ih => exact badLast_orderedInsertBy le bad hbad hgood x _ ih

theorem filter_orderedInsertBy_pos (le : α → α → Bool) (p : α → Bool) (x : α) (l : List α)
    (hx : p x = true) (h : ∀ y, p y = true → le x y = true) :
    (orderedInsertBy le x l).filter p = x :: l.filter p := by
  induction l with
  | nil => simp [orderedInsertBy, hx]
  | cons y t ih =>
    cases hxy : le x y with
    | true => simp [orderedInsertBy, hxy, List.filter_cons, hx]
    | false =>
      have hy : p y = false := by
        cases hpy : p y with
        | false => rfl
        | true => rw [h y hpy] at hxy; exact absurd hxy (by simp)
      simp [orderedInsertBy, hxy, List.filter_cons, hy, ih]

theorem filter_orderedInsertBy_neg (le : α → α → Bool) (p : α → Bool) (x : α) (l : List α)
    (hx : p x = false) :
    (orderedInsertBy le x l).filter p = l.filter p := by
  induction l with
  | nil => simp [orderedInsertBy, hx]
  | cons y t ih =>
    cases hxy : le x y with
    | true => simp [orderedInsertBy, hxy, List.filter_cons, hx]
    | false => simp [orderedInsertBy, hxy, List.filter_cons, ih]

/-- A stable sort leaves the relative order of any class of pairwise
le-comparable elements unchanged. -/
theorem filter_insertionSortBy (le : α → α → Bool) (p : α → Bool)
    (hcomp : ∀ a b, p a = true → p b = true → le a b = true) (l : List α) :
    (insertionSortBy le l).filter p = l.filter p := by
  induction l with
  | nil => rfl
  | cons x t ih =>
    cases hx : p x with
    | true =>
      rw [insertionSortBy,
        filter_orderedInsertBy_pos le p x _ hx (fun y hy => hcomp x y hx hy), ih]
      simp [List.filter_cons, hx]
    | false =>
      rw [insertionSortBy, filter_orderedInsertBy_neg le p x _ hx, ih]
      simp [List.filter_cons, hx]

namespace FinOps

/-- From `finops.jsx` `InteractiveTable.sortedData` comparator (lines 80–97):
null/undefined always compare as 1 resp. -1 irrespective of the direction,
two numbers compare by difference, every other pair compares by lower-cased
string representation. -/
def sortCompare (dir : SortDir) (aVal bVal : Value) : Int :=
  if aVal.isNullish then 1
  else if bVal.isNullish then -1
  else
    match aVal, bVal with
    | .num m, .num n => if dir == .asc then m - n else n - m
    | _, _ =>
      let aStr := lowerStr aVal.jsToString
      let bStr := lowerStr bVal.jsToString
      if strLt aStr bStr then (if dir == .asc then -1 else 1)
      else if strLt bStr aStr then (if dir == .asc then 1 else -1)
      else 0

/-- From `finops.jsx` `InteractiveTable.sortedData` (lines 77–98): the rows
stable-sorted by the comparator on the configured key. -/
def sortedData (dir : SortDir) (key : String) (rows : List Record) : List Record :=
  insertionSortBy (fun a b => decide (sortCompare dir (jsGet a key) (jsGet b key) ≤ 0)) rows

theorem sortCompare_nullish_left (dir : SortDir) (a b : Value) (h : a.isNullish = true) :
    sortCompare dir a b = 1 := by
  simp [sortCompare, h]

theorem sortCompare_nullish_right (dir : SortDir) (a b : Value)
    (ha : a.isNullish = false) (hb : b.isNullish = true) :
    sortCompare dir a b = -1 := by
  simp [sortCompare, ha, hb]

end FinOps

namespace ArmaanNew

/-- From `armaannew.jsx` `DataTable.sortedData` comparator (lines 86–94):
strictly-equal values compare as 0, otherwise the JavaScript `<` operator
decides, and `desc` negates the result.  No case folding, no null
handling. -/
def sortCompare (dir : SortDir) (aValue bValue : Value) : Int :=
  if aValue == bValue then 0
  else
    let comparison : Int := if jsLt aValue bValue then -1 else 1
    if dir == .desc then -comparison else comparison

/-- From `armaannew.jsx` `DataTable.sortedData` (lines 83–95). -/
def sortedData (dir : SortDir) (key : String) (rows : List Record) : List Record :=
  insertionSortBy (fun a b => decide (sortCompare dir (jsGet a key) (jsGet b key) ≤ 0)) rows

end ArmaanNew

namespace Armaan

/-- From `armaan.jsx` `DataTable.sortedData` comparator (lines 66–76): raw
relational comparison of the cell values, direction-flipped.  No case
folding, no null handling. -/
def sortCompare (dir : SortDir) (a b : Value) : Int :=
  if jsLt a b then (if dir == .asc then -1 else 1)
  else if jsLt b a then (if dir == .asc then 1 else -1)
  else 0

end Armaan

/-- C2 is false as stated: the armaannew variant sorts `null` before a
defined value under ascending order (JavaScript `null < 5` coerces null to
0), and both the armaannew and armaan comparators order `"B"` before `"a"`
(code-unit comparison) whereas the lower-cased text order required by the
claim — and computed by the finops variant — puts `"a"` first. -/
theorem C2_sort_cex :
    ArmaanNew.sortedData .asc "v" [[("v", Value.vnull)], [("v", Value.num 5)]] =
      [[("v", Value.vnull)], [("v", Value.num 5)]] ∧
    badLast (fun r => (jsGet r "v").isNullish)
      (ArmaanNew.sortedData .asc "v" [[("v", Value.vnull)], [("v", Value.num 5)]]) = false ∧
    ArmaanNew.sortCompare .asc (Value.str "B") (Value.str "a") = -1 ∧
    Armaan.sortCompare .asc (Value.str "B") (Value.str "a") = -1 ∧
    FinOps.sortCompare .asc (Value.str "B") (Value.str "a") = 1 := by
  decide

/-- C2 amended: the finops variant satisfies the claim — its sort is a
permutation of the input, places null/undefined keys last under both
directions, compares two numbers by their difference (direction-flipped),
compares every other defined pair as lower-cased text, and is stable (any
class of pairwise le-comparable rows keeps its relative order).  The armaan
and armaannew variants instead compare the raw cell values with the
JavaScript relational operators (see the counterexample). -/
theorem C2_sort_amended :
    (∀ (dir : SortDir) (key : String) (rows : List Record),
        (FinOps.sortedData dir key rows).Perm rows) ∧
    (∀ (dir : SortDir) (key : String) (rows : List Record),
        badLast (fun r => (jsGet r key).isNullish) (FinOps.sortedData dir key rows) = true) ∧
    (∀ m n : Int, FinOps.sortCompare .asc (.num m) (.num n) = m - n ∧
        FinOps.sortCompare .desc (.num m) (.num n) = n - m) ∧
    (∀ (dir : SortDir) (a b : Value), a.isNullish = true → FinOps.sortCompare dir a b = 1) ∧
    (∀ (dir : SortDir) (a b : Value), a.isNullish = false → b.isNullish = true →
        FinOps.sortCompare dir a b = -1) ∧
    (∀ (dir : SortDir) (a b : Value), a.isNullish = false → b.isNullish = false →
        (a.isNum && b.isNum) = false →
        FinOps.sortCompare dir a b =
          (if strLt (lowerStr a.jsToString) (lowerStr b.jsToString) then
             (if dir == .asc then -1 else 1)
           else if strLt (lowerStr b.jsToString) (lowerStr a.jsToString) then
             (if dir == .asc then 1 else -1)
           else 0)) ∧
    (∀ (p : Record → Bool) (dir : SortDir) (key : String) (rows : List Record),
        (∀ a b, p a = true → p b = true →
          FinOps.sortCompare dir (jsGet a key) (jsGet b key) ≤ 0) →
        (FinOps.sortedData dir key rows).filter p = rows.filter p) := by
  refine ⟨?_, ?_, ?_, ?_, ?_, ?_, ?_⟩
  · intro dir key rows
    exact perm_insertionSortBy _ rows
  · intro dir key rows
    refine badLast_insertionSortBy _ _ ?_ ?_ rows
    · intro a b ha
      rw [decide_eq_false_iff_not]
      rw [FinOps.sortCompare_nullish_left dir _ _ ha]
      decide
    · intro a b ha hb
      rw [decide_eq_true_eq]
      rw [FinOps.sortCompare_nullish_right dir _ _ ha hb]
      decide
  · intro m n
    exact ⟨rfl, rfl⟩
  · exact FinOps.sortCompare_nullish_left
  · exact FinOps.sortCompare_nullish_right
  · intro dir a b ha hb hn
    cases a <;> cases b <;>
      simp_all [FinOps.sortCompare, Value.isNullish, Value.isNum]
  · intro p dir key rows hp
    refine filter_insertionSortBy _ p ?_ rows
    intro a b ha hb
    exact decide_eq_true (hp a b ha hb)

/-- C2 amendment witness: the finops sort evaluated on a concrete
three-record dataset, with the stability hypothesis discharged for the class
of rows whose key value is the number 1. -/
theorem C2_sort_amended_witness :
    (FinOps.sortedData .asc "v"
        [[("v", Value.num 1), ("i", Value.num 0)], [("v", Value.num 2)],
         [("v", Value.num 1), ("i", Value.num 1)]]).filter
        (fun r => jsGet r "v" == Value.num 1) =
      ([[("v", Value.num 1), ("i", Value.num 0)], [("v", Value.num 2)],
        [("v", Value.num 1), ("i", Value.num 1)]] : List Record).filter
        (fun r => jsGet r "v" == Value.num 1) ∧
    (FinOps.sortedData .asc "v"
        [[("v", Value.num 1), ("i", Value.num 0)], [("v", Value.num 2)],
         [("v", Value.num 1), ("i", Value.num 1)]]).Perm
      [[("v", Value.num 1), ("i", Value.num 0)], [("v", Value.num 2)],
       [("v", Value.num 1), ("i", Value.num 1)]] :=
  ⟨C2_sort_amended.2.2.2.2.2.2 (fun r => jsGet r "v" == Value.num 1) .asc "v" _
      (fun a b ha hb => by
        have ha' : jsGet a "v" = Value.num 1 := by simpa using ha
        have hb' : jsGet b "v" = Value.num 1 := by simpa using hb
        rw [ha', hb']
        decide),
   C2_sort_amended.1 .asc "v" _⟩

/-- `Math.ceil(len / pageSize)` on natural numbers. -/
def jsCeilDiv (len pageSize : Nat) : Nat :=
  (len + pageSize - 1) / pageSize

/-- `list.slice((page - 1) * pageSize, page * pageSize)`. -/
def pageSlice (sorted : List α) (page pageSize : Nat) : List α :=
  (sorted.drop ((page - 1) * pageSize)).take pageSize

namespace FinOps

/-- From `finops.jsx` `InteractiveTable` (line 66): `itemsPerPage = 10`. -/
def itemsPerPage : Nat := 10

/-- From `finops.jsx` line 105: `Math.ceil(sortedData.length / itemsPerPage)`. -/
def totalPages (rows : List Record) : Nat :=
  jsCeilDiv rows.length itemsPerPage

/-- From `finops.jsx` `InteractiveTable.paginatedData` (lines 100–103). -/
def paginatedData (rows : List Record) (currentPage : Nat) : List Record :=
  pageSlice rows currentPage itemsPerPage

/-- From `finops.jsx` line 187: `setCurrentPage(prev => Math.max(prev - 1, 1))`. -/
def prevClick (currentPage : Nat) : Nat :=
  max (currentPage - 1) 1

/-- From `finops.jsx` line 194: `setCurrentPage(prev => Math.min(prev + 1, totalPages))`. -/
def nextClick (totalPgs currentPage : Nat) : Nat :=
  min (currentPage + 1) totalPgs

/-- The page the component renders for a given table-local state when no
sort key is configured (`sortedData` then returns `filteredData` unchanged):
the `filter → paginate` pipeline.  The page number is used exactly as stored
— the render performs no clamping. -/
def renderPage (data : List Record) (searchTerm : String) (currentPage : Nat) :
    List Record :=
  paginatedData (filteredData data searchTerm) currentPage

end FinOps

namespace ArmaanNew

/-- From `armaannew.jsx` `DataTable` (line 69): `itemsPerPage = 50`. -/
def itemsPerPage : Nat := 50

/-- From `armaannew.jsx` line 103. -/
def totalPages (rows : List Record) : Nat :=
  jsCeilDiv rows.length itemsPerPage

/-- From `armaannew.jsx` `DataTable.paginatedData` (lines 98–101). -/
def paginatedData (rows : List Record) (currentPage : Nat) : List Record :=
  pageSlice rows currentPage itemsPerPage

/-- From `armaannew.jsx` line 244: `setCurrentPage(p => Math.max(1, p - 1))`. -/
def prevClick (currentPage : Nat) : Nat :=
  max 1 (currentPage - 1)

/-- From `armaannew.jsx` line 251: `setCurrentPage(p => Math.min(totalPages, p + 1))`. -/
def nextClick (totalPgs currentPage : Nat) : Nat :=
  min totalPgs (currentPage + 1)

end ArmaanNew

/-- An 11-row dataset for the finops table (page size 10); three rows match
the search term "x". -/
def c3Rows : List Record :=
  [[("n", Value.str "row0")], [("n", Value.str "row1")], [("n", Value.str "row2")],
   [("n", Value.str "row3")], [("n", Value.str "row4")], [("n", Value.str "row5")],
   [("n", Value.str "row6")], [("n", Value.str "row7")],
   [("n", Value.str "x1")], [("n", Value.str "x2")], [("n", Value.str "x3")]]

/-- C3 is false as stated: the page number is clamped only inside the
Previous/Next click handlers, never on render.  On an 11-row finops table the
user reaches page 2 by a Next click; typing the search term "x" shrinks the
filtered count to 3 (totalPages 1) but leaves the stored page at 2, and the
rendered slice is empty although 3 matching records exist. -/
theorem C3_pagination_cex :
    FinOps.totalPages (FinOps.filteredData c3Rows "") = 2 ∧
    FinOps.nextClick (FinOps.totalPages (FinOps.filteredData c3Rows "")) 1 = 2 ∧
    (FinOps.filteredData c3Rows "x").length = 3 ∧
    FinOps.totalPages (FinOps.filteredData c3Rows "x") = 1 ∧
    FinOps.renderPage c3Rows "x" 2 = [] := by
  decide

/-- C3 amended: `totalPages` is exactly `ceil(count / pageSize)` (page size
10 for the finops table, 50 for the armaannew table); a page inside
`[1, totalPages]` always renders a non-empty slice of at most `pageSize`
records, and the Previous/Next handlers clamp the page to `[1, totalPages]`
— but no clamping happens on render, so a stored page can go stale when the
filtered count shrinks (see the counterexample); the stale page is still not
a hard failure: the slice is merely empty. -/
theorem C3_pagination_amended :
    (∀ rows : List Record, rows.length ≤ FinOps.totalPages rows * 10 ∧
        FinOps.totalPages rows * 10 < rows.length + 10) ∧
    (∀ rows : List Record, rows.length ≤ ArmaanNew.totalPages rows * 50 ∧
        ArmaanNew.totalPages rows * 50 < rows.length + 50) ∧
    (∀ (rows : List Record) (page : Nat), 1 ≤ page → page ≤ FinOps.totalPages rows →
        FinOps.paginatedData rows page ≠ []) ∧
    (∀ (rows : List Record) (page : Nat), (FinOps.paginatedData rows page).length ≤ 10) ∧
    (∀ (rows : List Record) (page : Nat), 1 ≤ page → page ≤ ArmaanNew.totalPages rows →
        ArmaanNew.paginatedData rows page ≠ []) ∧
    (∀ (rows : List Record) (page : Nat), (ArmaanNew.paginatedData rows page).length ≤ 50) ∧
    (∀ page tp : Nat, 1 ≤ tp → page ≤ tp →
        1 ≤ FinOps.prevClick page ∧ FinOps.prevClick page ≤ tp ∧
        1 ≤ FinOps.nextClick tp page ∧ FinOps.nextClick tp page ≤ tp) ∧
    (∀ page tp : Nat, 1 ≤ tp → page ≤ tp →
        1 ≤ ArmaanNew.prevClick page ∧ ArmaanNew.prevClick page ≤ tp ∧
        1 ≤ ArmaanNew.nextClick tp page ∧ ArmaanNew.nextClick tp page ≤ tp) := by
  refine ⟨?_, ?_, ?_, ?_, ?_, ?_, ?_, ?_⟩
  · intro rows
    simp only [FinOps.totalPages, jsCeilDiv, FinOps.itemsPerPage]
    omega
  · intro rows
    simp only [ArmaanNew.totalPages, jsCeilDiv, ArmaanNew.itemsPerPage]
    omega
  · intro rows page h1 h2
    simp only [FinOps.totalPages, jsCeilDiv, FinOps.itemsPerPage] at h2
    simp only [FinOps.paginatedData, pageSlice, FinOps.itemsPerPage]
    intro hc
    have hlen := congrArg List.length hc
    simp only [List.length_take, List.length_drop, List.length_nil] at hlen
    omega
  · intro rows page
    simp only [FinOps.paginatedData, pageSlice, FinOps.itemsPerPage]
    simp [List.length_take]
  · intro rows page h1 h2
    simp only [ArmaanNew.totalPages, jsCeilDiv, ArmaanNew.itemsPerPage] at h2
    simp only [ArmaanNew.paginatedData, pageSlice, ArmaanNew.itemsPerPage]
    intro hc
    have hlen := congrArg List.length hc
    simp only [List.length_take, List.length_drop, List.length_nil] at hlen
    omega
  · intro rows page
    simp only [ArmaanNew.paginatedData, pageSlice, ArmaanNew.itemsPerPage]
    simp [List.length_take]
  · intro page tp h1 h2
    simp only [FinOps.prevClick, FinOps.nextClick]
    omega
  · intro page tp h1 h2
    simp only [ArmaanNew.prevClick, ArmaanNew.nextClick]
    omega

/-- C3 amendment witness: the pagination properties evaluated on the concrete
11-row dataset at page 1. -/
theorem C3_pagination_amended_witness :
    FinOps.paginatedData c3Rows 1 ≠ [] ∧
    (1 ≤ FinOps.prevClick 2 ∧ FinOps.prevClick 2 ≤ 2 ∧
     1 ≤ FinOps.nextClick 2 2 ∧ FinOps.nextClick 2 2 ≤ 2) :=
  ⟨C3_pagination_amended.2.2.1 c3Rows 1 (by decide) (by decide),
   C3_pagination_amended.2.2.2.2.2.2.1 2 2 (by decide) (by decide)⟩

/-- The `{ success, data, message }` JSON body every endpoint returns
(spec §6).  `data` is `none` when the field is absent or `null`. -/
structure ApiBody (α : Type) where
  success : Bool
  data : Option α
  message : Option String
deriving DecidableEq, Repr

/-- Outcome of one `fetch`: network failure, non-2xx response, or a 2xx
response with a parsed body. -/
inductive FetchResult (α : Type) where
  | transportError
  | httpError (status : Nat)
  | ok (body : ApiBody α)
deriving DecidableEq, Repr

/-- The request failed in the sense of spec §6/§7: transport error, non-2xx
status, or a `success:false` body. -/
def FetchResult.failed : FetchResult α → Bool
  | .transportError => true
  | .httpError _ => true
  | .ok body => !body.success

namespace ArmaanNew

/-- The view identifiers the armaannew `Dashboard` stores in `currentView`. -/
inductive ViewId where
  | warehouses
  | users
  | drillDown
  | queries
deriving DecidableEq, Repr

/-- The warehouse drill-down response payload
(`{ warehouse_name, column_selected, user_analysis }`). -/
structure DrillPayload where
  warehouseName : String
  columnSelected : String
  userAnalysis : List Record
deriving DecidableEq, Repr

/-- The user drill-down response payload (`{ queries }`). -/
structure UserDrillPayload where
  queries : List Record
deriving DecidableEq, Repr

/-- The armaannew `Dashboard` state (lines 377–385; the fields the claims
touch). -/
structure DashState where
  currentView : ViewId
  drillDownData : Option DrillPayload
  queriesData : Option (List Record)
  selectedQueryId : Option String
  showQueryModal : Bool
  error : Option String
deriving DecidableEq, Repr

/-- The initial `Dashboard` state. -/
def initState : DashState :=
  { currentView := .warehouses, drillDownData := none, queriesData := some [],
    selectedQueryId := none, showQueryModal := false, error := none }

/-- From `armaannew.jsx` `DataTable.handleCellClick` (lines 112–116): the
cell click reaches the dashboard handler whenever the column is listed as
clickable and a handler is wired — the cell value is not consulted here. -/
def cellClickFires (clickableColumns : List String) (hasHandler : Bool)
    (columnKey : String) : Bool :=
  clickableColumns.contains columnKey && hasHandler

/-- From `armaannew.jsx` `clickableUserColumns` (lines 547–550). -/
def clickableUserColumns : List String :=
  ["spilled_queries", "slow_queries", "select_star_queries", "untagged_queries",
   "failed_queries", "zero_result_queries", "high_compile_queries"]

/-- From `armaannew.jsx` `handleWarehouseCellClick` (lines 415–428): a value
of exactly 0 or null returns before any request; otherwise one drill-down
request is issued and a 2xx response stores `response.data` and navigates to
the drill-down view (the `success` flag is never read).  The second
component counts the outbound requests of the click. -/
def handleWarehouseCellClick (s : DashState) (rowData : Record)
    (columnKey : String) (value : Value) (result : FetchResult DrillPayload) :
    DashState × Nat :=
  if value == Value.num 0 || value == Value.vnull then (s, 0)
  else
    match result with
    | .transportError => ({ s with error := some "Failed to fetch" }, 1)
    | .httpError _ => ({ s with error := some "Failed to perform warehouse drill-down" }, 1)
    | .ok body => ({ s with drillDownData := body.data, currentView := .drillDown }, 1)

/-- From `armaannew.jsx` `handleUserCellClick` (lines 431–442): no value
guard — the drill-down request is issued unconditionally.  On a 2xx response
the handler reads `response.data.queries`; a missing `data` raises a
TypeError that the surrounding catch converts to the error state. -/
def handleUserCellClick (s : DashState) (rowData : Record)
    (columnKey : String) (value : Value) (result : FetchResult UserDrillPayload) :
    DashState × Nat :=
  match result with
  | .transportError => ({ s with error := some "Failed to fetch" }, 1)
  | .httpError _ => ({ s with error := some "Failed to perform user drill-down" }, 1)
  | .ok body =>
    match body.data with
    | some payload =>
      ({ s with queriesData := some payload.queries, currentView := .queries }, 1)
    | none => ({ s with error := some "TypeError" }, 1)

/-- From `armaannew.jsx` `handleDrillDownUserClick` (lines 445–456):
`setQueriesData(response.data); setCurrentView('queries')`. -/
def handleDrillDownUserClick (s : DashState) (queryIds : List String)
    (result : FetchResult (List Record)) : DashState × Nat :=
  match result with
  | .transportError => ({ s with error := some "Failed to fetch" }, 1)
  | .httpError _ => ({ s with error := some "Failed to fetch queries batch" }, 1)
  | .ok body => ({ s with queriesData := body.data, currentView := .queries }, 1)

/-- Header tab "Warehouses" (line 680). -/
def tabWarehouses (s : DashState) : DashState :=
  { s with currentView := .warehouses }

/-- Header tab "Users" (line 690). -/
def tabUsers (s : DashState) : DashState :=
  { s with currentView := .users }

/-- Back button of the drill-down view (line 605). -/
def backFromDrillDown (s : DashState) : DashState :=
  { s with currentView := .warehouses }

/-- Back button of the queries view (line 628):
`setCurrentView(drillDownData ? 'drill-down' : 'warehouses')` — the target
depends only on whether any drill-down payload is loaded, not on how the
queries view was reached. -/
def backFromQueries (s : DashState) : DashState :=
  { s with currentView := if s.drillDownData.isSome then .drillDown else .warehouses }

/-- From `armaannew.jsx` `handleQueryDetailClick` (lines 459–462). -/
def handleQueryDetailClick (s : DashState) (queryId : String) : DashState :=
  { s with selectedQueryId := some queryId, showQueryModal := true }

/-- The modal `onClose` handler (lines 712–715). -/
def closeQueryModal (s : DashState) : DashState :=
  { s with showQueryModal := false, selectedQueryId := none }

end ArmaanNew

/-- C1 is false as stated: in the armaannew user table the click handler has
no value guard, so clicking the clickable column `spilled_queries` on a cell
whose value is 0 issues one drill-down request and, on success, transitions
to the queries view. -/
theorem C1_zero_click_cex :
    ArmaanNew.cellClickFires ArmaanNew.clickableUserColumns true "spilled_queries" = true ∧
    (ArmaanNew.handleUserCellClick (ArmaanNew.tabUsers ArmaanNew.initState)
        [("user_name", Value.str "alice"), ("spilled_queries", Value.num 0)]
        "spilled_queries" (Value.num 0)
        (.ok { success := true,
               data := some { queries := [[("QUERY_ID", Value.str "q1")]] },
               message := none })).2 = 1 ∧
    (ArmaanNew.handleUserCellClick (ArmaanNew.tabUsers ArmaanNew.initState)
        [("user_name", Value.str "alice"), ("spilled_queries", Value.num 0)]
        "spilled_queries" (Value.num 0)
        (.ok { success := true,
               data := some { queries := [[("QUERY_ID", Value.str "q1")]] },
               message := none })).1.currentView = ArmaanNew.ViewId.queries ∧
    (ArmaanNew.tabUsers ArmaanNew.initState).currentView = ArmaanNew.ViewId.users := by
  decide

/-- C1 amended: only the warehouse handler guards the cell value — a click
on a warehouse cell whose value is exactly 0 or null is inert (no state
change, no request), any other value issues exactly one request and a 2xx
response advances to the drill-down view; the user handler issues its
request regardless of the value.  A cell in a non-clickable column never
reaches either handler. -/
theorem C1_click_guard_amended :
    (∀ (s : ArmaanNew.DashState) (rowData : Record) (key : String)
        (result : FetchResult ArmaanNew.DrillPayload),
        ArmaanNew.handleWarehouseCellClick s rowData key (Value.num 0) result = (s, 0)) ∧
    (∀ (s : ArmaanNew.DashState) (rowData : Record) (key : String)
        (result : FetchResult ArmaanNew.DrillPayload),
        ArmaanNew.handleWarehouseCellClick s rowData key Value.vnull result = (s, 0)) ∧
    (∀ (s : ArmaanNew.DashState) (rowData : Record) (key : String) (v : Value)
        (result : FetchResult ArmaanNew.DrillPayload),
        (v == Value.num 0 || v == Value.vnull) = false →
        (ArmaanNew.handleWarehouseCellClick s rowData key v result).2 = 1) ∧
    (∀ (s : ArmaanNew.DashState) (rowData : Record) (key : String) (v : Value)
        (body : ApiBody ArmaanNew.DrillPayload),
        (v == Value.num 0 || v == Value.vnull) = false →
        (ArmaanNew.handleWarehouseCellClick s rowData key v (.ok body)).1.currentView =
          ArmaanNew.ViewId.drillDown) ∧
    (∀ (s : ArmaanNew.DashState) (rowData : Record) (key : String) (v : Value)
        (result : FetchResult ArmaanNew.UserDrillPayload),
        (ArmaanNew.handleUserCellClick s rowData key v result).2 = 1) ∧
    (∀ (cols : List String) (h : Bool) (key : String),
        ArmaanNew.cellClickFires cols h key = true → key ∈ cols) := by
  refine ⟨?_, ?_, ?_, ?_, ?_, ?_⟩
  · intro s rowData key result
    rfl
  · intro s rowData key result
    rfl
  · intro s rowData key v result h
    simp only [ArmaanNew.handleWarehouseCellClick, h, Bool.false_eq_true, if_false]
    cases result <;> rfl
  · intro s rowData key v body h
    simp only [ArmaanNew.handleWarehouseCellClick, h, Bool.false_eq_true, if_false]
  · intro s rowData key v result
    cases result with
    | transportError => rfl
    | httpError code => rfl
    | ok body =>
      obtain ⟨su, d, m⟩ := body
      cases d <;> rfl
  · intro cols h key hf
    simp only [ArmaanNew.cellClickFires, Bool.and_eq_true] at hf
    exact List.mem_of_elem_eq_true hf.1

/-- C1 amendment witness: the warehouse guard evaluated at value 5 and at
value 0 on a concrete state. -/
theorem C1_click_guard_amended_witness :
    (ArmaanNew.handleWarehouseCellClick ArmaanNew.initState
        [("WAREHOUSE_NAME", Value.str "WH1")] "QUERIES_1_10_SEC" (Value.num 5)
        FetchResult.transportError).2 = 1 ∧
    ArmaanNew.handleWarehouseCellClick ArmaanNew.initState
        [("WAREHOUSE_NAME", Value.str "WH1")] "QUERIES_1_10_SEC" (Value.num 0)
        FetchResult.transportError = (ArmaanNew.initState, 0) :=
  ⟨C1_click_guard_amended.2.2.1 ArmaanNew.initState
      [("WAREHOUSE_NAME", Value.str "WH1")] "QUERIES_1_10_SEC" (Value.num 5)
      FetchResult.transportError (by decide),
   C1_click_guard_amended.1 ArmaanNew.initState
      [("WAREHOUSE_NAME", Value.str "WH1")] "QUERIES_1_10_SEC"
      FetchResult.transportError⟩

/-- The state after starting on the warehouses tab, switching to the users
tab, and drilling down on user "alice" (a successful request): the queries
view, with no drill-down payload ever loaded. -/
def c4AfterUserDrill : ArmaanNew.DashState :=
  (ArmaanNew.handleUserCellClick (ArmaanNew.tabUsers ArmaanNew.initState)
    [("user_name", Value.str "alice"), ("spilled_queries", Value.num 3)]
    "spilled_queries" (Value.num 3)
    (.ok { success := true,
           data := some { queries := [[("QUERY_ID", Value.str "q1")]] },
           message := none })).1

/-- C4 is false as stated: a queries view reached from the user root list
goes back to the warehouses root list, not to the users root list — the back
target checks only whether a drill-down payload happens to be loaded. -/
theorem C4_back_provenance_cex :
    (ArmaanNew.tabUsers ArmaanNew.initState).currentView = ArmaanNew.ViewId.users ∧
    c4AfterUserDrill.currentView = ArmaanNew.ViewId.queries ∧
    c4AfterUserDrill.drillDownData = none ∧
    (ArmaanNew.backFromQueries c4AfterUserDrill).currentView = ArmaanNew.ViewId.warehouses ∧
    (ArmaanNew.backFromQueries c4AfterUserDrill).currentView ≠ ArmaanNew.ViewId.users := by
  decide

/-- C4 amended: "back" from the queries view goes to the drill-down view
exactly when some drill-down payload is loaded — in that case the payload
(warehouse and dimension) is untouched by the queries transition, so a
QueryList reached from a DrillDown does return to that same DrillDown; when
no payload is loaded, "back" goes to the warehouses root list even if the
queries view was reached from the user root list.  No breadcrumb ViewState
is involved. -/
theorem C4_back_amended :
    (∀ (s : ArmaanNew.DashState) (d : ArmaanNew.DrillPayload), s.drillDownData = some d →
        (ArmaanNew.backFromQueries s).currentView = ArmaanNew.ViewId.drillDown ∧
        (ArmaanNew.backFromQueries s).drillDownData = some d) ∧
    (∀ s : ArmaanNew.DashState, s.drillDownData = none →
        (ArmaanNew.backFromQueries s).currentView = ArmaanNew.ViewId.warehouses) ∧
    (∀ (s : ArmaanNew.DashState) (d : ArmaanNew.DrillPayload) (ids : List String)
        (body : ApiBody (List Record)), s.drillDownData = some d →
        (ArmaanNew.handleDrillDownUserClick s ids (.ok body)).1.currentView =
          ArmaanNew.ViewId.queries ∧
        (ArmaanNew.handleDrillDownUserClick s ids (.ok body)).1.drillDownData = some d ∧
        (ArmaanNew.backFromQueries
            (ArmaanNew.handleDrillDownUserClick s ids (.ok body)).1).currentView =
          ArmaanNew.ViewId.drillDown ∧
        (ArmaanNew.backFromQueries
            (ArmaanNew.handleDrillDownUserClick s ids (.ok body)).1).drillDownData =
          some d) := by
  refine ⟨?_, ?_, ?_⟩
  · intro s d h
    simp [ArmaanNew.backFromQueries, h]
  · intro s h
    simp [ArmaanNew.backFromQueries, h]
  · intro s d ids body h
    refine ⟨rfl, h, ?_, ?_⟩
    · simp [ArmaanNew.backFromQueries, ArmaanNew.handleDrillDownUserClick, h]
    · simpa [ArmaanNew.backFromQueries, ArmaanNew.handleDrillDownUserClick] using h

/-- C4 amendment witness: the drill-down round trip evaluated on a concrete
state that carries the WH1 / QUERIES_1_10_SEC payload. -/
theorem C4_back_amended_witness :
    (ArmaanNew.backFromQueries
        { ArmaanNew.initState with
            drillDownData := some { warehouseName := "WH1",
                                    columnSelected := "QUERIES_1_10_SEC",
                                    userAnalysis := [] } }).currentView =
      ArmaanNew.ViewId.drillDown ∧
    (ArmaanNew.backFromQueries
        { ArmaanNew.initState with
            drillDownData := some { warehouseName := "WH1",
                                    columnSelected := "QUERIES_1_10_SEC",
                                    userAnalysis := [] } }).drillDownData =
      some { warehouseName := "WH1", columnSelected := "QUERIES_1_10_SEC",
             userAnalysis := [] } :=
  C4_back_amended.1
    { ArmaanNew.initState with
        drillDownData := some { warehouseName := "WH1",
                                columnSelected := "QUERIES_1_10_SEC",
                                userAnalysis := [] } }
    { warehouseName := "WH1", columnSelected := "QUERIES_1_10_SEC", userAnalysis := [] }
    rfl

namespace Armaan

/-- A breadcrumb entry of the armaan `App`: `{ title, view }`. -/
structure Crumb where
  title : String
  view : String
deriving DecidableEq, Repr

/-- The armaan `App` state (lines 197–212; the fields the claims touch). -/
structure AppState where
  currentView : String
  breadcrumbs : List Crumb
  drillDownData : List Record
  queriesData : List Record
  queryDetails : Option Record
  selectedWarehouse : Option Value
  selectedKPI : Option String
  toast : Option (String × String)
deriving DecidableEq, Repr

/-- The initial armaan `App` state. -/
def initState : AppState :=
  { currentView := "warehouses", breadcrumbs := [⟨"Warehouses", "warehouses"⟩],
    drillDownData := [], queriesData := [], queryDetails := none,
    selectedWarehouse := none, selectedKPI := none, toast := none }

/-- From `armaan.jsx` `apiCall` (lines 223–248): a non-2xx status and a
`success:false` body are both converted to thrown errors, so the calling
handler's catch branch runs. -/
def apiCall (result : FetchResult α) : Except String (ApiBody α) :=
  match result with
  | .transportError => .error "Failed to fetch"
  | .httpError status => .error ("HTTP error! status: " ++ toString status)
  | .ok body =>
    if body.success then .ok body
    else .error (body.message.getD "API request failed")

/-- From `armaan.jsx` `navigate` (lines 284–289), case 'warehouse-drill':
resets the breadcrumbs to the two-entry warehouse path. -/
def navigateWarehouseDrill (s : AppState) (warehouse kpi : String) : AppState :=
  { s with currentView := "warehouse-drill",
           breadcrumbs := [⟨"Warehouses", "warehouses"⟩,
                           ⟨warehouse ++ " - " ++ kpi, "warehouse-drill"⟩] }

/-- From `armaan.jsx` `navigate` (lines 297–299), case 'query-details':
appends a breadcrumb entry to the current stack. -/
def navigateQueryDetails (s : AppState) : AppState :=
  { s with currentView := "query-details",
           breadcrumbs := s.breadcrumbs ++ [⟨"Query Details", "query-details"⟩] }

/-- From `armaan.jsx` `handleWarehouseKPIClick` (lines 304–327): the
warehouse-name column is ignored; otherwise one request is issued and on a
thrown failure only an error toast is set, while on success the drill-down
data, selection and navigation state advance.  The second component counts
the outbound requests. -/
def handleWarehouseKPIClick (s : AppState) (row : Record) (colKey : String)
    (result : FetchResult (List Record)) : AppState × Nat :=
  if colKey == "WAREHOUSE_NAME" then (s, 0)
  else
    match apiCall result with
    | .error msg =>
      ({ s with toast := some ("Failed to load drill-down data: " ++ msg, "error") }, 1)
    | .ok body =>
      (navigateWarehouseDrill
        { s with drillDownData := body.data.getD [],
                 selectedWarehouse := some (jsGet row "WAREHOUSE_NAME"),
                 selectedKPI := some colKey,
                 toast := some ("Found queries", "success") }
        (jsGet row "WAREHOUSE_NAME").jsToString colKey, 1)

/-- From `armaan.jsx` `handleViewQueryDetails` (lines 384–397). -/
def handleViewQueryDetails (s : AppState) (queryId : String)
    (result : FetchResult Record) : AppState × Nat :=
  match apiCall result with
  | .error msg =>
    ({ s with toast := some ("Failed to load query details: " ++ msg, "error") }, 1)
  | .ok body =>
    (navigateQueryDetails
      { s with queryDetails := body.data,
               toast := some ("Query details loaded", "success") }, 1)

end Armaan

/-- A 2xx response whose body carries `success:false`: per spec §6 this is a
request failure. -/
def c5FailBody : ApiBody ArmaanNew.DrillPayload :=
  { success := false, data := none, message := some "db down" }

/-- C5 is false as stated: the armaannew warehouse handler never reads the
`success` flag — on a 2xx `success:false` body it stores the (absent)
payload and still advances to the drill-down view. -/
theorem C5_failure_advance_cex :
    (FetchResult.ok c5FailBody).failed = true ∧
    (ArmaanNew.handleWarehouseCellClick ArmaanNew.initState
        [("WAREHOUSE_NAME", Value.str "WH1"), ("FAILED_QUERIES", Value.num 7)]
        "FAILED_QUERIES" (Value.num 7) (.ok c5FailBody)).1.currentView =
      ArmaanNew.ViewId.drillDown ∧
    ArmaanNew.initState.currentView = ArmaanNew.ViewId.warehouses ∧
    ArmaanNew.initState.currentView ≠ ArmaanNew.ViewId.drillDown := by
  decide

/-- C5 amended: in the armaan variant every failing request (transport
error, non-2xx status, or `success:false` body) leaves the view, the
displayed datasets and the breadcrumbs exactly as they were and surfaces an
error toast; in the armaannew variant the same holds for transport errors
and non-2xx statuses, but a 2xx `success:false` body is not detected and
advances the view (see the counterexample). -/
theorem C5_failure_amended :
    (∀ (s : Armaan.AppState) (row : Record) (colKey : String)
        (result : FetchResult (List Record)),
        result.failed = true → (colKey == "WAREHOUSE_NAME") = false →
        (Armaan.handleWarehouseKPIClick s row colKey result).1.currentView = s.currentView ∧
        (Armaan.handleWarehouseKPIClick s row colKey result).1.drillDownData = s.drillDownData ∧
        (Armaan.handleWarehouseKPIClick s row colKey result).1.queriesData = s.queriesData ∧
        (Armaan.handleWarehouseKPIClick s row colKey result).1.breadcrumbs = s.breadcrumbs ∧
        ∃ msg, (Armaan.handleWarehouseKPIClick s row colKey result).1.toast =
          some (msg, "error")) ∧
    (∀ (s : ArmaanNew.DashState) (row : Record) (key : String) (v : Value),
        (ArmaanNew.handleWarehouseCellClick s row key v .transportError).1.currentView =
          s.currentView ∧
        (ArmaanNew.handleWarehouseCellClick s row key v .transportError).1.drillDownData =
          s.drillDownData ∧
        (ArmaanNew.handleWarehouseCellClick s row key v .transportError).1.queriesData =
          s.queriesData) ∧
    (∀ (s : ArmaanNew.DashState) (row : Record) (key : String) (v : Value) (code : Nat),
        (ArmaanNew.handleWarehouseCellClick s row key v (.httpError code)).1.currentView =
          s.currentView ∧
        (ArmaanNew.handleWarehouseCellClick s row key v (.httpError code)).1.drillDownData =
          s.drillDownData ∧
        (ArmaanNew.handleWarehouseCellClick s row key v (.httpError code)).1.queriesData =
          s.queriesData) ∧
    (∀ (s : ArmaanNew.DashState) (row : Record) (key : String) (v : Value),
        (v == Value.num 0 || v == Value.vnull) = false →
        (ArmaanNew.handleWarehouseCellClick s row key v .transportError).1.error ≠ none) := by
  refine ⟨?_, ?_, ?_, ?_⟩
  · intro s row colKey result hfail hcol
    cases result with
    | transportError =>
      simp [Armaan.handleWarehouseKPIClick, Armaan.apiCall, hcol]
    | httpError code =>
      simp [Armaan.handleWarehouseKPIClick, Armaan.apiCall, hcol]
    | ok body =>
      have hsu : body.success = false := by
        simpa [FetchResult.failed] using hfail
      simp [Armaan.handleWarehouseKPIClick, Armaan.apiCall, hcol, hsu]
  · intro s row key v
    by_cases hv : (v == Value.num 0 || v == Value.vnull) = true
    · simp [ArmaanNew.handleWarehouseCellClick, hv]
    · simp only [Bool.not_eq_true] at hv
      simp [ArmaanNew.handleWarehouseCellClick, hv]
  · intro s row key v code
    by_cases hv : (v == Value.num 0 || v == Value.vnull) = true
    · simp [ArmaanNew.handleWarehouseCellClick, hv]
    · simp only [Bool.not_eq_true] at hv
      simp [ArmaanNew.handleWarehouseCellClick, hv]
  · intro s row key v hv
    simp [ArmaanNew.handleWarehouseCellClick, hv]

/-- C5 amendment witness: a failing (`success:false`) warehouse drill-down
evaluated on the concrete armaan initial state. -/
theorem C5_failure_amended_witness :
    (Armaan.handleWarehouseKPIClick Armaan.initState
        [("WAREHOUSE_NAME", Value.str "WH1")] "FAILED_QUERIES"
        (.ok { success := false, data := none, message := none })).1.currentView =
      Armaan.initState.currentView ∧
    (Armaan.handleWarehouseKPIClick Armaan.initState
        [("WAREHOUSE_NAME", Value.str "WH1")] "FAILED_QUERIES"
        (.ok { success := false, data := none, message := none })).1.drillDownData =
      Armaan.initState.drillDownData ∧
    (Armaan.handleWarehouseKPIClick Armaan.initState
        [("WAREHOUSE_NAME", Value.str "WH1")] "FAILED_QUERIES"
        (.ok { success := false, data := none, message := none })).1.queriesData =
      Armaan.initState.queriesData ∧
    (Armaan.handleWarehouseKPIClick Armaan.initState
        [("WAREHOUSE_NAME", Value.str "WH1")] "FAILED_QUERIES"
        (.ok { success := false, data := none, message := none })).1.breadcrumbs =
      Armaan.initState.breadcrumbs ∧
    ∃ msg, (Armaan.handleWarehouseKPIClick Armaan.initState
        [("WAREHOUSE_NAME", Value.str "WH1")] "FAILED_QUERIES"
        (.ok { success := false, data := none, message := none })).1.toast =
      some (msg, "error") :=
  C5_failure_amended.1 Armaan.initState [("WAREHOUSE_NAME", Value.str "WH1")]
    "FAILED_QUERIES" (.ok { success := false, data := none, message := none })
    (by decide) (by decide)

namespace ArmaanNew

/-- Combined state of the `QueryDetailsModal` component (lines 266–289) and
the parent fields that control it.  The component instance stays mounted
while closed, so `queryDetails` persists; `pending` is the multiset of query
ids with an unresolved `fetchQueryDetails` request. -/
structure ModalSys where
  showModal : Bool
  selectedQueryId : Option String
  queryDetails : Option Record
  isLoading : Bool
  error : Option String
  pending : List String
deriving DecidableEq, Repr

/-- The initial modal system state. -/
def modalInit : ModalSys :=
  { showModal := false, selectedQueryId := none, queryDetails := none,
    isLoading := false, error := none, pending := [] }

/-- Events of the overlay: the user opens it for a query id (the effect at
lines 271–287 then starts a request and sets the loading flag), the user
closes it (lines 712–715; the effect does not run because `isOpen` is
false), or one pending response resolves
(`.then(response => setQueryDetails(response.data))`, applied with no
staleness check). -/
inductive ModalEvent where
  | openFor (id : String)
  | close
  | resolve (id : String) (data : Record)
deriving DecidableEq, Repr

/-- One step of the modal system. -/
def modalStep (s : ModalSys) : ModalEvent → ModalSys
  | .openFor id =>
    { s with showModal := true, selectedQueryId := some id,
             isLoading := true, error := none, pending := s.pending ++ [id] }
  | .close => { s with showModal := false, selectedQueryId := none }
  | .resolve id data =>
    if s.pending.contains id then
      { s with queryDetails := some data, isLoading := false,
               pending := s.pending.erase id }
    else s

/-- Run a sequence of modal events. -/
def modalRun (s : ModalSys) (events : List ModalEvent) : ModalSys :=
  events.foldl modalStep s

end ArmaanNew

/-- Open the overlay for q1, close it before its request resolves, reopen
for q2, q2's response arrives, then q1's late response arrives. -/
def c6Trace : List ArmaanNew.ModalEvent :=
  [.openFor "q1", .close, .openFor "q2",
   .resolve "q2" [("QUERY_ID", Value.str "q2")],
   .resolve "q1" [("QUERY_ID", Value.str "q1")]]

/-- C6 is false as stated: there is no overlay session identifier — after
reopening for q2 and receiving q2's record, q1's late response overwrites
the displayed record while the overlay is open on q2. -/
theorem C6_stale_response_cex :
    (ArmaanNew.modalRun ArmaanNew.modalInit
        [ArmaanNew.ModalEvent.openFor "q1", ArmaanNew.ModalEvent.close,
         ArmaanNew.ModalEvent.openFor "q2",
         ArmaanNew.ModalEvent.resolve "q2" [("QUERY_ID", Value.str "q2")]]).queryDetails =
      some [("QUERY_ID", Value.str "q2")] ∧
    (ArmaanNew.modalRun ArmaanNew.modalInit c6Trace).queryDetails =
      some [("QUERY_ID", Value.str "q1")] ∧
    (ArmaanNew.modalRun ArmaanNew.modalInit c6Trace).showModal = true ∧
    (ArmaanNew.modalRun ArmaanNew.modalInit c6Trace).selectedQueryId = some "q2" ∧
    (ArmaanNew.modalRun ArmaanNew.modalInit c6Trace).queryDetails ≠
      some [("QUERY_ID", Value.str "q2")] := by
  decide

/-- C6 amended: a late response can never reopen the overlay — visibility
and the selected id are parent state that resolve events do not touch, and
closing clears them unconditionally — but there is no session identifier: a
pending response is applied to the modal record unconditionally, so q1's
late response does overwrite the displayed q2 record. -/
theorem C6_stale_response_amended :
    (∀ (s : ArmaanNew.ModalSys) (id : String) (d : Record),
        (ArmaanNew.modalStep s (.resolve id d)).showModal = s.showModal ∧
        (ArmaanNew.modalStep s (.resolve id d)).selectedQueryId = s.selectedQueryId) ∧
    (∀ (s : ArmaanNew.ModalSys) (id : String) (d : Record),
        s.pending.contains id = true →
        (ArmaanNew.modalStep s (.resolve id d)).queryDetails = some d) ∧
    (∀ s : ArmaanNew.ModalSys,
        (ArmaanNew.modalStep s .close).showModal = false ∧
        (ArmaanNew.modalStep s .close).selectedQueryId = none) := by
  refine ⟨?_, ?_, ?_⟩
  · intro s id d
    simp only [ArmaanNew.modalStep]
    by_cases hp : id ∈ s.pending
    · simp [hp]
    · simp [hp]
  · intro s id d hp
    have hm : id ∈ s.pending := List.mem_of_elem_eq_true hp
    simp [ArmaanNew.modalStep, hm]
  · intro s
    exact ⟨rfl, rfl⟩

/-- C6 amendment witness: a pending q1 response applied while the overlay is
open on q2. -/
theorem C6_stale_response_amended_witness :
    (ArmaanNew.modalStep
        { showModal := true, selectedQueryId := some "q2",
          queryDetails := some [("QUERY_ID", Value.str "q2")], isLoading := false,
          error := none, pending := ["q1"] }
        (.resolve "q1" [("QUERY_ID", Value.str "q1")])).queryDetails =
      some [("QUERY_ID", Value.str "q1")] ∧
    (ArmaanNew.modalStep
        { showModal := true, selectedQueryId := some "q2",
          queryDetails := some [("QUERY_ID", Value.str "q2")], isLoading := false,
          error := none, pending := ["q1"] }
        (.resolve "q1" [("QUERY_ID", Value.str "q1")])).showModal =
      ({ showModal := true, selectedQueryId := some "q2",
         queryDetails := some [("QUERY_ID", Value.str "q2")], isLoading := false,
         error := none, pending := ["q1"] } : ArmaanNew.ModalSys).showModal :=
  ⟨C6_stale_response_amended.2.1
      { showModal := true, selectedQueryId := some "q2",
        queryDetails := some [("QUERY_ID", Value.str "q2")], isLoading := false,
        error := none, pending := ["q1"] }
      "q1" [("QUERY_ID", Value.str "q1")] (by decide),
   (C6_stale_response_amended.1
      { showModal := true, selectedQueryId := some "q2",
        queryDetails := some [("QUERY_ID", Value.str "q2")], isLoading := false,
        error := none, pending := ["q1"] }
      "q1" [("QUERY_ID", Value.str "q1")]).1⟩

/-- C8 is false as stated: in the armaan variant "view details" is a full
navigation — on success it pushes a 'Query Details' breadcrumb entry and
changes the current view. -/
theorem C8_overlay_cex :
    (Armaan.handleViewQueryDetails Armaan.initState "q1"
        (.ok { success := true, data := some [("QUERY_ID", Value.str "q1")],
               message := none })).1.breadcrumbs.length = 2 ∧
    Armaan.initState.breadcrumbs.length = 1 ∧
    (Armaan.handleViewQueryDetails Armaan.initState "q1"
        (.ok { success := true, data := some [("QUERY_ID", Value.str "q1")],
               message := none })).1.currentView = "query-details" ∧
    Armaan.initState.currentView = "warehouses" := by
  decide

/-- C8 amended: in the armaannew variant the detail overlay is orthogonal —
opening sets only the modal flag and selected id, closing clears exactly
those two fields, the view, datasets and error state are untouched, and
close after open restores a state whose modal was closed; there are no
breadcrumbs in that variant.  In the armaan variant, however, viewing query
details is a full navigation that appends a 'Query Details' breadcrumb entry
(see the counterexample). -/
theorem C8_overlay_amended :
    (∀ (s : ArmaanNew.DashState) (id : String),
        (ArmaanNew.handleQueryDetailClick s id).currentView = s.currentView ∧
        (ArmaanNew.handleQueryDetailClick s id).drillDownData = s.drillDownData ∧
        (ArmaanNew.handleQueryDetailClick s id).queriesData = s.queriesData ∧
        (ArmaanNew.handleQueryDetailClick s id).error = s.error ∧
        (ArmaanNew.handleQueryDetailClick s id).showQueryModal = true ∧
        (ArmaanNew.handleQueryDetailClick s id).selectedQueryId = some id) ∧
    (∀ s : ArmaanNew.DashState,
        (ArmaanNew.closeQueryModal s).currentView = s.currentView ∧
        (ArmaanNew.closeQueryModal s).drillDownData = s.drillDownData ∧
        (ArmaanNew.closeQueryModal s).queriesData = s.queriesData ∧
        (ArmaanNew.closeQueryModal s).error = s.error) ∧
    (∀ (s : ArmaanNew.DashState) (id : String),
        s.showQueryModal = false → s.selectedQueryId = none →
        ArmaanNew.closeQueryModal (ArmaanNew.handleQueryDetailClick s id) = s) ∧
    (∀ (s : Armaan.AppState) (id : String) (body : ApiBody Record),
        body.success = true →
        (Armaan.handleViewQueryDetails s id (.ok body)).1.breadcrumbs =
          s.breadcrumbs ++ [⟨"Query Details", "query-details"⟩]) := by
  refine ⟨?_, ?_, ?_, ?_⟩
  · intro s id
    exact ⟨rfl, rfl, rfl, rfl, rfl, rfl⟩
  · intro s
    exact ⟨rfl, rfl, rfl, rfl⟩
  · intro s id h1 h2
    simp only [ArmaanNew.closeQueryModal, ArmaanNew.handleQueryDetailClick]
    obtain ⟨cv, dd, qd, sq, sm, er⟩ := s
    simp only at h1 h2
    subst h1 h2
    rfl
  · intro s id body hsu
    simp [Armaan.handleViewQueryDetails, Armaan.apiCall, hsu,
      Armaan.navigateQueryDetails]

/-- C8 amendment witness: the armaannew open/close round trip and the armaan
breadcrumb push evaluated on the initial states. -/
theorem C8_overlay_amended_witness :
    ArmaanNew.closeQueryModal
        (ArmaanNew.handleQueryDetailClick ArmaanNew.initState "q1") =
      ArmaanNew.initState ∧
    (Armaan.handleViewQueryDetails Armaan.initState "q1"
        (.ok { success := true, data := some [("QUERY_ID", Value.str "q1")],
               message := none })).1.breadcrumbs =
      Armaan.initState.breadcrumbs ++ [⟨"Query Details", "query-details"⟩] :=
  ⟨C8_overlay_amended.2.2.1 ArmaanNew.initState "q1" rfl rfl,
   C8_overlay_amended.2.2.2 Armaan.initState "q1"
      { success := true, data := some [("QUERY_ID", Value.str "q1")], message := none }
      rfl⟩

/-- A column declaration `{ key, label }` (the render function is irrelevant
to the export, which reads only `col.key`). -/
structure ColumnSpec where
  key : String
  label : String
deriving DecidableEq, Repr

namespace ArmaanNew

/-- One exported field from `armaannew.jsx` line 122:
the template `"${row[col.key] || ''}"` — the value's string (empty for any
falsy value, including 0) wrapped in double quotes, with no escaping of the
content. -/
def csvField (row : Record) (col : ColumnSpec) : String :=
  "\"" ++ (if (jsGet row col.key).jsFalsy then "" else (jsGet row col.key).jsToString) ++ "\""

/-- The line list built by `armaannew.jsx` `exportToCSV` (lines 118–124):
a header of the column keys joined by commas, then one line per record with
the fields in declared column order. -/
def csvLines (columns : List ColumnSpec) (sortedData : List Record) : List String :=
  (String.intercalate "," (columns.map (fun col => col.key))) ::
    sortedData.map (fun row =>
      String.intercalate "," (columns.map (fun col => csvField row col)))

/-- `exportToCSV`: the lines joined by a newline character. -/
def exportToCSV (columns : List ColumnSpec) (sortedData : List Record) : String :=
  String.intercalate "\n" (csvLines columns sortedData)

end ArmaanNew

/-- C7 is false as stated: the header row consists of the column keys, not
the column labels, and a value of 0 is exported as the empty quoted field,
so re-parsing does not recover it. -/
theorem C7_export_cex :
    ArmaanNew.csvLines [{ key := "a", label := "A" }] [[("a", Value.num 0)]] =
      ["a", "\"\""] ∧
    ArmaanNew.exportToCSV [{ key := "a", label := "A" }] [[("a", Value.num 0)]] =
      "a\n\"\"" ∧
    "a" ≠ String.intercalate ","
      (([{ key := "a", label := "A" }] : List ColumnSpec).map (fun col => col.label)) ∧
    Value.jsToString (Value.num 0) = "0" ∧
    ("0" : String) ≠ "" := by
  decide

/-- C7 amended: the export is the newline-join of a line list with exactly
`|D| + 1` entries — a header of the column KEYS (not labels) and one line
per record, in dataset order, whose fields follow the declared column order
regardless of the record's internal field order; each field is the value's
string representation wrapped in unescaped double quotes, with every falsy
value (including 0) replaced by the empty string, so only truthy values
whose text is free of quotes, commas and newlines re-parse to themselves. -/
theorem C7_export_amended (columns : List ColumnSpec) (D : List Record) :
    (ArmaanNew.csvLines columns D).length = D.length + 1 ∧
    (ArmaanNew.csvLines columns D).head? =
      some (String.intercalate "," (columns.map (fun col => col.key))) ∧
    (∀ i : Nat, (ArmaanNew.csvLines columns D)[i + 1]? =
        (D[i]?).map (fun row =>
          String.intercalate "," (columns.map (fun col => ArmaanNew.csvField row col)))) ∧
    ArmaanNew.exportToCSV columns D =
      String.intercalate "\n" (ArmaanNew.csvLines columns D) ∧
    (∀ (row : Record) (col : ColumnSpec), (jsGet row col.key).jsFalsy = false →
        ArmaanNew.csvField row col =
          "\"" ++ (jsGet row col.key).jsToString ++ "\"") ∧
    (∀ (row : Record) (col : ColumnSpec), (jsGet row col.key).jsFalsy = true →
        ArmaanNew.csvField row col = "\"\"") := by
  refine ⟨?_, rfl, ?_, rfl, ?_, ?_⟩
  · simp [ArmaanNew.csvLines]
  · intro i
    simp [ArmaanNew.csvLines]
  · intro row col h
    simp [ArmaanNew.csvField, h]
  · intro row col h
    simp only [ArmaanNew.csvField, h, if_true]
    rfl

/-- C7 amendment witness: the export evaluated on a concrete two-column,
two-record dataset whose records list their fields in different orders. -/
theorem C7_export_amended_witness :
    (ArmaanNew.csvLines
        [{ key := "a", label := "A" }, { key := "b", label := "B" }]
        [[("a", Value.num 1), ("b", Value.str "x")],
         [("b", Value.str "y"), ("a", Value.num 2)]]).length = 3 ∧
    (ArmaanNew.csvLines
        [{ key := "a", label := "A" }, { key := "b", label := "B" }]
        [[("a", Value.num 1), ("b", Value.str "x")],
         [("b", Value.str "y"), ("a", Value.num 2)]])[2]? =
      (([[("a", Value.num 1), ("b", Value.str "x")],
         [("b", Value.str "y"), ("a", Value.num 2)]] : List Record)[1]?).map
        (fun row => String.intercalate ","
          (([{ key := "a", label := "A" }, { key := "b", label := "B" }] : List ColumnSpec).map
            (fun col => ArmaanNew.csvField row col))) ∧
    ArmaanNew.csvField [("b", Value.str "y"), ("a", Value.num 2)]
        { key := "a", label := "A" } =
      "\"" ++ (jsGet [("b", Value.str "y"), ("a", Value.num 2)] "a").jsToString ++ "\"" :=
  ⟨(C7_export_amended
      [{ key := "a", label := "A" }, { key := "b", label := "B" }]
      [[("a", Value.num 1), ("b", Value.str "x")],
       [("b", Value.str "y"), ("a", Value.num 2)]]).1,
   (C7_export_amended
      [{ key := "a", label := "A" }, { key := "b", label := "B" }]
      [[("a", Value.num 1), ("b", Value.str "x")],
       [("b", Value.str "y"), ("a", Value.num 2)]]).2.2.1 1,
   (C7_export_amended
      [{ key := "a", label := "A" }, { key := "b", label := "B" }]
      [[("a", Value.num 1), ("b", Value.str "x")],
       [("b", Value.str "y"), ("a", Value.num 2)]]).2.2.2.2.1
      [("b", Value.str "y"), ("a", Value.num 2)] { key := "a", label := "A" }
      (by decide)⟩
